import Mathlib

/-!
Verification of the `fail_safe` checkpoint-orchestration engine.

We shallowly embed the Python code of `src/fail_safe/classes/state.py` and
`src/fail_safe/classes/storage.py`:

* a `StoreModel` is the durable medium a `StateStorage` owns — a finite map
  from session name to a byte blob (`LocalStorage` realises this as one file
  per resolved name);
* `StateStorage.load` / `StateStorage.save` are the concrete methods of the
  abstract base class, parameterised by the opaque snapshot codec (`dill`):
  `enc` embeds `pickle.dumps` (may fail with `PickleError`), `dec` embeds
  `pickle.loads` (may fail with `UnpicklingError`);
* `FailSafeState` carries the session configuration (name, attachment list,
  registered stores, `delete_cache` policy, transient `entered` flag);
* `FailSafeState.enter` / `FailSafeState.exit` embed `__enter__`/`__exit__`;
  the caller's frame locals are passed and returned explicitly as a
  `VariableMapping` (the `Scope` collaborator of the spec);
* the fan-out of save/wipe over all registered stores
  (`with ThreadPoolExecutor() as ex: for _ in ex.map(op, stores): pass`)
  is embedded by `fanOutMap`: every submitted task runs to completion
  (the executor shutdown joins all of them), and iterating the result
  iterator raises the first failed task's exception.
-/

set_option autoImplicit false

namespace FailSafe

/-- Serialized snapshot bytes (`bytes` in Python), abstractly a list of numbers. -/
abbrev Bytes := List Nat

/-- A mapping from variable names to values — the unit of data moved between
the caller's scope and storage (`Dict[str, Any]`). -/
abbrev VariableMapping (α : Type) := List (String × α)

/-- `pickle.PickleError` raised by `pickle.dumps` on an un-encodable value. -/
inductive PickleError where
  | pickleError
deriving DecidableEq

/-- `pickle.UnpicklingError` raised by `pickle.loads` on undecodable bytes. -/
inductive UnpicklingError where
  | unpicklingError
deriving DecidableEq

/-- Look up a name in a name-keyed association list. -/
def lookupName {β : Type} (l : List (String × β)) (n : String) : Option β :=
  (l.find? (fun kv => kv.1 = n)).map (fun kv => kv.2)

/-- Remove a name from a name-keyed association list. -/
def eraseName {β : Type} (l : List (String × β)) (n : String) : List (String × β) :=
  l.filter (fun kv => ¬ kv.1 = n)

/-- Bind a name in a name-keyed association list (the filesystem directory is
a map from resolved file name to file content; writing replaces any previous
content under the same name). -/
def insertName {β : Type} (l : List (String × β)) (n : String) (b : β) :
    List (String × β) :=
  (n, b) :: eraseName l n

/-- The durable medium owned by one `StateStorage` instance: the named byte
blobs currently persisted (for `LocalStorage`, the files of its directory). -/
structure StoreModel where
  files : List (String × Bytes)
deriving DecidableEq

/-- `LocalStorage.load_data`: the stored bytes under `name`, if any. -/
def StoreModel.load_data (s : StoreModel) (name : String) : Option Bytes :=
  lookupName s.files name

/-- `LocalStorage.save_data`: overwrite the blob under `name` unconditionally. -/
def StoreModel.save_data (s : StoreModel) (name : String) (data : Bytes) :
    StoreModel :=
  ⟨insertName s.files name data⟩

/-- `LocalStorage.wipe`: remove the blob under `name` if present (a no-op
otherwise). -/
def StoreModel.wipe (s : StoreModel) (name : String) : StoreModel :=
  ⟨eraseName s.files name⟩

/-- `StateStorage.load`: fetch the raw bytes; if present and non-empty
(Python truthiness of `bytes`), try to unpickle, swallowing
`UnpicklingError`; return `None` in every failure case. -/
def StateStorage.load {α : Type}
    (dec : Bytes → Except UnpicklingError (VariableMapping α))
    (s : StoreModel) (name : String) : Option (VariableMapping α) :=
  match s.load_data name with
  | some d =>
    if d.isEmpty then none
    else
      match dec d with
      | Except.ok m => some m
      | Except.error _ => none
  | none => none

/-- `StateStorage.save`: pickle the state — an encoding failure is re-raised
to the caller and nothing is written — then hand the bytes to `save_data`. -/
def StateStorage.save {α : Type}
    (enc : VariableMapping α → Except PickleError Bytes)
    (s : StoreModel) (name : String) (state : VariableMapping α) :
    Except PickleError StoreModel :=
  match enc state with
  | Except.error e => Except.error e
  | Except.ok d => Except.ok (s.save_data name d)

/-- The configuration and transient state of one `FailSafeState` session
object; the registered stores' durable contents are carried inline so the
protocol functions can return the updated world. -/
structure FailSafeState (α : Type) where
  name : String
  attached : List String
  state_stores : List StoreModel
  delete_cache : Bool
  entered : Bool
deriving DecidableEq

/-- Body of `FailSafeState.filter_vars`: if anything is attached, keep only
the attached names; with an empty attachment list, all locals pass through. -/
def filterAttached {α : Type} (attached : List String)
    (locals : VariableMapping α) : VariableMapping α :=
  if attached.isEmpty then locals
  else locals.filter (fun kv => attached.contains kv.1)

/-- `FailSafeState.filter_vars`: project the locals through the session's
attachment list. -/
def FailSafeState.filter_vars {α : Type} (sess : FailSafeState α)
    (locals : VariableMapping α) : VariableMapping α :=
  filterAttached sess.attached locals

/-- One `f_locals.update` step of `frames.set_caller_locals`: overwrite an
existing binding in place, or append a new one (never removes a binding). -/
def updateLocal {α : Type} (scope : VariableMapping α) (k : String) (v : α) :
    VariableMapping α :=
  if scope.any (fun kv => kv.1 = k) then
    scope.map (fun kv => if kv.1 = k then (k, v) else kv)
  else scope ++ [(k, v)]

/-- `frames.set_caller_locals(**kwargs)`: update the caller's locals with
every binding of the restored mapping. -/
def set_caller_locals {α : Type} (scope m : VariableMapping α) :
    VariableMapping α :=
  m.foldl (fun s kv => updateLocal s kv.1 kv.2) scope

/-- Observable interactions of the open protocol with its collaborators:
which stores were probed by `load`, and what was handed to the scope. -/
inductive Event (α : Type) where
  | probe (store : StoreModel) (name : String)
  | restore (m : VariableMapping α)
deriving DecidableEq

/-- The loop of `FailSafeState.load_state`: consult the stores in
registration order; the first non-`None` `load` result is returned and the
loop stops, so later stores are not even probed. Also records the probes. -/
def loadFirst {α : Type}
    (dec : Bytes → Except UnpicklingError (VariableMapping α))
    (name : String) : List StoreModel → Option (VariableMapping α) × List (Event α)
  | [] => (none, [])
  | s :: rest =>
    match StateStorage.load dec s name with
    | some m => (some m, [Event.probe s name])
    | none =>
      let r := loadFirst dec name rest
      (r.1, Event.probe s name :: r.2)

/-- `FailSafeState.load_state`: try each registered store in order. -/
def FailSafeState.load_state {α : Type} (sess : FailSafeState α)
    (dec : Bytes → Except UnpicklingError (VariableMapping α)) :
    Option (VariableMapping α) × List (Event α) :=
  loadFirst dec sess.name sess.state_stores

/-- `ValueError` raised by `__enter__` when no `StateStorage` is registered. -/
inductive EnterError where
  | noStorage
deriving DecidableEq

/-- `FailSafeState.__enter__`: reject an empty store list before anything
else; otherwise load the first available state, and if one was found, filter
it and inject it into the caller's locals; finally mark the session entered.
The returned event list records every collaborator interaction. -/
def FailSafeState.enter {α : Type} (sess : FailSafeState α)
    (dec : Bytes → Except UnpicklingError (VariableMapping α))
    (scope : VariableMapping α) :
    Except EnterError (FailSafeState α × VariableMapping α) × List (Event α) :=
  if sess.state_stores.isEmpty then (Except.error EnterError.noStorage, [])
  else
    match sess.load_state dec with
    | (some m, evs) =>
      let restored := sess.filter_vars m
      (Except.ok ({ sess with entered := true }, set_caller_locals scope restored),
        evs ++ [Event.restore restored])
    | (none, evs) => (Except.ok ({ sess with entered := true }, scope), evs)

/-- The fan-out `with ThreadPoolExecutor() as ex: for _ in ex.map(op, xs)`:
`map` submits one task per store up front and the executor shutdown joins
all of them, so every task runs and every effect happens; iterating the
results in submission order re-raises the first failed task's exception. -/
def fanOutMap {σ ε : Type} (op : σ → σ × Option ε) : List σ → List σ × Option ε
  | [] => ([], none)
  | x :: xs =>
    let r := op x
    let rs := fanOutMap op xs
    (r.1 :: rs.1, match r.2 with | some e => some e | none => rs.2)

/-- One task of the save fan-out: `store.save(self.name, state)`; a raised
`PickleError` becomes that task's failure, leaving the store untouched. -/
def saveTask {α : Type} (enc : VariableMapping α → Except PickleError Bytes)
    (name : String) (state : VariableMapping α) (s : StoreModel) :
    StoreModel × Option PickleError :=
  match StateStorage.save enc s name state with
  | Except.ok s2 => (s2, none)
  | Except.error e => (s, some e)

/-- `FailSafeState.save_state`: fan the save out to every registered store. -/
def FailSafeState.save_state {α : Type} (sess : FailSafeState α)
    (enc : VariableMapping α → Except PickleError Bytes)
    (state : VariableMapping α) : FailSafeState α × Option PickleError :=
  let r := fanOutMap (saveTask enc sess.name state) sess.state_stores
  ({ sess with state_stores := r.1 }, r.2)

/-- `FailSafeState.del_state` (alias `wipe`): fan the wipe out to every
registered store; `StoreModel.wipe` does not fail. -/
def FailSafeState.del_state {α : Type} (sess : FailSafeState α) :
    FailSafeState α :=
  { sess with
    state_stores :=
      (fanOutMap (fun s => (StoreModel.wipe s sess.name, (none : Option Empty)))
        sess.state_stores).1 }

/-- `FailSafeState.__exit__`: clear the entered flag first; then, if the work
raised (`exc_type`/`exc_instance` both present) or `delete_cache` is false,
save the filtered caller locals to every store; otherwise wipe every store.
`workFailed` stands for
`isinstance(exc_type, type) and isinstance(exc_instance, BaseException)`. -/
def FailSafeState.exit {α : Type} (sess : FailSafeState α)
    (enc : VariableMapping α → Except PickleError Bytes)
    (workFailed : Bool) (scope : VariableMapping α) :
    FailSafeState α × Option PickleError :=
  let sess2 : FailSafeState α := { sess with entered := false }
  if workFailed || !sess2.delete_cache then
    sess2.save_state enc (sess2.filter_vars scope)
  else
    (sess2.del_state, none)

/-- Modelled from the spec: `FailSafeState.reset_if` and the ResetPredicate
are exercised by the repository's tests (`test_state_reset_condition`) but
the method is missing from `src/fail_safe/classes/state.py`. Per the spec's
open protocol: after the empty-store-list check, evaluate the ResetPredicate
(a literal boolean or a zero-argument callable, evaluated lazily at open
time — `reset` is its value); if true, perform the full wipe protocol before
attempting a load; then proceed as `__enter__` does. -/
def FailSafeState.enterWithReset {α : Type} (sess : FailSafeState α)
    (reset : Bool)
    (dec : Bytes → Except UnpicklingError (VariableMapping α))
    (scope : VariableMapping α) :
    Except EnterError (FailSafeState α × VariableMapping α) × List (Event α) :=
  if sess.state_stores.isEmpty then (Except.error EnterError.noStorage, [])
  else
    let sess2 := if reset then sess.del_state else sess
    match sess2.load_state dec with
    | (some m, evs) =>
      let restored := sess2.filter_vars m
      (Except.ok ({ sess2 with entered := true }, set_caller_locals scope restored),
        evs ++ [Event.restore restored])
    | (none, evs) => (Except.ok ({ sess2 with entered := true }, scope), evs)

/-!
### The random file-name tag of `LocalStorage._resolve_path`

`_resolve_path` substitutes `"%04x" % random.randint(0, 65536)` for the
`{rand}` template token. `random.randint(a, b)` returns an integer `n` with
`a <= n <= b`, **both endpoints inclusive**; `"%04x" % n` renders `n` in
lowercase hexadecimal, left-padded with zeros to a minimum width of four.
-/

/-- The set of values Python's `random.randint(a, b)` can return: both
endpoints are inclusive. -/
def randintPossible (a b n : Nat) : Prop := a ≤ n ∧ n ≤ b

instance (a b n : Nat) : Decidable (randintPossible a b n) := by
  unfold randintPossible; infer_instance

/-- The draw made for the `{rand}` token: `random.randint(0, 65536)`. -/
def randTagPossible (n : Nat) : Prop := randintPossible 0 65536 n

instance (n : Nat) : Decidable (randTagPossible n) := by
  unfold randTagPossible; infer_instance

/-- One lowercase hexadecimal digit. -/
def hexChar (n : Nat) : Char :=
  if n < 10 then Char.ofNat (48 + n) else Char.ofNat (87 + n)

/-- Hexadecimal digits of `n`, most significant first (fuel-driven). -/
def hexDigitsAux : Nat → Nat → List Char
  | 0, _ => []
  | fuel + 1, n =>
    if n < 16 then [hexChar n]
    else hexDigitsAux fuel (n / 16) ++ [hexChar (n % 16)]

/-- Hexadecimal digits of `n`, as `"%x"` renders them. -/
def hexDigits (n : Nat) : List Char := hexDigitsAux (n + 1) n

/-- Python's `"%04x" % n`: lowercase hex, zero-padded to width four. -/
def format04x (n : Nat) : String :=
  String.mk (List.replicate (4 - (hexDigits n).length) (Char.ofNat 48) ++ hexDigits n)

/-!
### A concrete executable codec for witnesses

`dill`/`pickle` is an opaque collaborator; the theorems are parameterised by
an arbitrary `enc`/`dec` pair. For the closed witnesses we instantiate them
with a small executable length-prefixed codec on `VariableMapping Nat`.
-/

/-- Encode one entry: key length, key code points, value. -/
def encodeEntry (e : String × Nat) : List Nat :=
  e.1.length :: (e.1.data.map Char.toNat ++ [e.2])

/-- Encode a whole mapping as the concatenation of its entries. -/
def encodeMapping (m : VariableMapping Nat) : List Nat :=
  (m.map encodeEntry).flatten

/-- Decode entries back, with fuel bounded by the input length. -/
def decodeAux : Nat → List Nat → Option (VariableMapping Nat)
  | _, [] => some []
  | 0, _ :: _ => none
  | fuel + 1, n :: rest =>
    let key := String.mk ((rest.take n).map Char.ofNat)
    match rest.drop n with
    | [] => none
    | v :: rest2 =>
      match decodeAux fuel rest2 with
      | some tail => some ((key, v) :: tail)
      | none => none

/-- Witness encoder: always succeeds, output non-empty by the leading tag. -/
def demoEnc (m : VariableMapping Nat) : Except PickleError Bytes :=
  Except.ok (1 :: encodeMapping m)

/-- Witness decoder, partial inverse of `demoEnc`. -/
def demoDec (b : Bytes) : Except UnpicklingError (VariableMapping Nat) :=
  match b with
  | 1 :: rest =>
    match decodeAux rest.length rest with
    | some m => Except.ok m
    | none => Except.error UnpicklingError.unpicklingError
  | _ => Except.error UnpicklingError.unpicklingError

/-- An encoder that always fails, modelling an un-picklable value in the
state (for the encode-error witnesses). -/
def failEnc (_ : VariableMapping Nat) : Except PickleError Bytes :=
  Except.error PickleError.pickleError

/-!
### A store whose backend can fail, for the fan-out failure analysis

`StoreModel`'s operations are pure; to study per-store I/O failures during
the fan-out we give a store a failure switch: when `failing` is set, its
`save_data` raises, and the task's failure carries the store's identity.
-/

/-- A registered store whose backend write may raise an I/O error. -/
structure FlakyStore where
  ident : Nat
  files : List (String × Bytes)
  failing : Bool
deriving DecidableEq

/-- The save task over a `FlakyStore`: the backend raises (error tagged with
the store's identity) when `failing`, otherwise the blob is written. -/
def flakySaveTask (name : String) (data : Bytes) (s : FlakyStore) :
    FlakyStore × Option Nat :=
  if s.failing then (s, some s.ident)
  else ({ s with files := insertName s.files name data }, none)

/-- The first failure among the fan-out task results, in submission order —
what the `for` loop over `executor.map(...)` re-raises. -/
def firstFailure {ε : Type} : List (Option ε) → Option ε
  | [] => none
  | some e :: _ => some e
  | none :: rest => firstFailure rest

/-! ### Helper lemmas -/

theorem lookupName_insertName {β : Type} (l : List (String × β)) (n : String)
    (b : β) : lookupName (insertName l n b) n = some b := by
  simp [lookupName, insertName, List.find?]

theorem lookupName_eraseName {β : Type} (l : List (String × β)) (n : String) :
    lookupName (eraseName l n) n = none := by
  induction l with
  | nil => rfl
  | cons kv rest ih =>
    by_cases h : kv.1 = n
    · simp [eraseName, List.filter, h] at ih ⊢
      exact ih
    · simp [eraseName, lookupName, List.filter, List.find?, h] at ih ⊢

theorem load_save_data {α : Type}
    (dec : Bytes → Except UnpicklingError (VariableMapping α))
    (s : StoreModel) (name : String) (b : Bytes) (hne : b ≠ [])
    (m : VariableMapping α) (hdec : dec b = Except.ok m) :
    StateStorage.load dec (s.save_data name b) name = some m := by
  have hb : b.isEmpty = false := by
    cases b with
    | nil => exact absurd rfl hne
    | cons x xs => rfl
  simp [StateStorage.load, StoreModel.save_data, StoreModel.load_data,
    lookupName_insertName, hb, hdec]

theorem load_wipe {α : Type}
    (dec : Bytes → Except UnpicklingError (VariableMapping α))
    (s : StoreModel) (name : String) :
    StateStorage.load dec (s.wipe name) name = none := by
  simp [StateStorage.load, StoreModel.wipe, StoreModel.load_data,
    lookupName_eraseName]

theorem loadFirst_all_none {α : Type}
    (dec : Bytes → Except UnpicklingError (VariableMapping α))
    (name : String) (stores : List StoreModel)
    (h : ∀ s ∈ stores, StateStorage.load dec s name = none) :
    loadFirst dec name stores
      = (none, stores.map (fun s => Event.probe s name)) := by
  induction stores with
  | nil => rfl
  | cons s rest ih =>
    have hs := h s (by simp)
    have hrest := ih (fun t ht => h t (by simp [ht]))
    simp [loadFirst, hs, hrest]

theorem fanOutMap_spec {σ ε : Type} (op : σ → σ × Option ε) (xs : List σ) :
    fanOutMap op xs
      = (xs.map (fun x => (op x).1),
         firstFailure (xs.map (fun x => (op x).2))) := by
  induction xs with
  | nil => rfl
  | cons x xs ih =>
    cases h : (op x).2 with
    | none => simp [fanOutMap, ih, h, firstFailure]
    | some e => simp [fanOutMap, ih, h, firstFailure]

theorem del_state_stores {α : Type} (sess : FailSafeState α) :
    sess.del_state.state_stores
      = sess.state_stores.map (fun s => s.wipe sess.name) := by
  simp [FailSafeState.del_state, fanOutMap_spec]

theorem firstFailure_replicate_none {ε : Type} (k : Nat) :
    firstFailure (ε := ε) (List.replicate k none) = none := by
  induction k with
  | zero => rfl
  | succ k ih => simp [List.replicate, firstFailure, ih]

theorem save_state_stores {α : Type}
    (enc : VariableMapping α → Except PickleError Bytes)
    (sess : FailSafeState α) (state : VariableMapping α) (b : Bytes)
    (henc : enc state = Except.ok b) :
    sess.save_state enc state
      = ({ sess with
            state_stores :=
              sess.state_stores.map (fun s => s.save_data sess.name b) },
         none) := by
  simp [FailSafeState.save_state, fanOutMap_spec, saveTask, StateStorage.save,
    henc, firstFailure_replicate_none]

/-! ### Shared concrete instances for the closed witnesses -/

/-- A fresh store with nothing persisted. -/
def emptyStore : StoreModel := ⟨[]⟩

/-- A session over one empty store, with `"x"` attached. -/
def demoSess : FailSafeState Nat :=
  { name := "n", attached := ["x"], state_stores := [emptyStore],
    delete_cache := true, entered := false }

/-- Caller locals at close time. -/
def demoScope : VariableMapping Nat := [("x", 5), ("y", 6)]

/-- The encoding of the projected locals `[("x", 5)]` under `demoEnc`. -/
def demoBytes : Bytes := 1 :: encodeMapping [("x", 5)]

/-! ### Claims -/

/-- C1: on every close of an open session exactly one of two branches runs;
if the enclosed work raised, or `delete_cache` is false (RETAIN_ON_SUCCESS),
the current bindings are projected through the attachment filter and saved to
every registered store under the session name (each store then holds the
encoded projection under that name); otherwise — no exception and the default
DELETE_ON_SUCCESS policy — the snapshot under the session name is wiped from
every registered store (no store holds anything under that name). -/
theorem exit_persist_or_wipe {α : Type}
    (enc : VariableMapping α → Except PickleError Bytes)
    (sess : FailSafeState α) (workFailed : Bool) (scope : VariableMapping α) :
    (∀ b : Bytes, (workFailed = true ∨ sess.delete_cache = false) →
      enc (sess.filter_vars scope) = Except.ok b →
      (sess.exit enc workFailed scope).1.state_stores
          = sess.state_stores.map (fun s => s.save_data sess.name b)
        ∧ ∀ s ∈ (sess.exit enc workFailed scope).1.state_stores,
            s.load_data sess.name = some b)
    ∧ (workFailed = false → sess.delete_cache = true →
      (sess.exit enc workFailed scope).1.state_stores
          = sess.state_stores.map (fun s => s.wipe sess.name)
        ∧ ∀ s ∈ (sess.exit enc workFailed scope).1.state_stores,
            s.load_data sess.name = none) := by
  constructor
  · intro b hcond henc
    have hif : (workFailed || !sess.delete_cache) = true := by
      rcases hcond with h | h <;> simp [h]
    have hstores :
        (sess.exit enc workFailed scope).1.state_stores
          = sess.state_stores.map (fun s => s.save_data sess.name b) := by
      simp only [FailSafeState.exit]
      simp only [hif, Bool.true_eq, if_true]
      have := save_state_stores enc
        ({ sess with entered := false } : FailSafeState α)
        (({ sess with entered := false } : FailSafeState α).filter_vars scope)
        b henc
      simp [this]
    refine ⟨hstores, ?_⟩
    intro s hs
    rw [hstores] at hs
    rcases List.mem_map.mp hs with ⟨t, _, rfl⟩
    simp [StoreModel.load_data, StoreModel.save_data, lookupName_insertName]
  · intro hw hd
    have hstores :
        (sess.exit enc workFailed scope).1.state_stores
          = sess.state_stores.map (fun s => s.wipe sess.name) := by
      simp [FailSafeState.exit, hw, hd, del_state_stores]
    refine ⟨hstores, ?_⟩
    intro s hs
    rw [hstores] at hs
    rcases List.mem_map.mp hs with ⟨t, _, rfl⟩
    simp [StoreModel.load_data, StoreModel.wipe, lookupName_eraseName]

/-- Closed witness for C1: both branches at concrete inputs — a failing close
writes the projected bindings to the single store; a clean close with the
default policy wipes it. -/
theorem exit_persist_or_wipe_witness :
    ((demoSess.exit demoEnc true demoScope).1.state_stores
        = demoSess.state_stores.map (fun s => s.save_data demoSess.name demoBytes))
    ∧ ((demoSess.exit demoEnc false demoScope).1.state_stores
        = demoSess.state_stores.map (fun s => s.wipe demoSess.name)) :=
  ⟨((exit_persist_or_wipe demoEnc demoSess true demoScope).1 demoBytes
      (Or.inl rfl) (by rfl)).1,
   ((exit_persist_or_wipe demoEnc demoSess false demoScope).2 rfl rfl).1⟩

/-- C2: on open the registered stores are consulted by `load` in
registration order; the first store returning a non-absent mapping determines
the restored state and iteration stops — the event trace shows only that one
probe, so later stores' contents never influence the outcome; if every store
returns absent, every store is probed in order, nothing is found, and open
proceeds with the caller's scope untouched (nothing handed to the scope). -/
theorem priority_load {α : Type}
    (dec : Bytes → Except UnpicklingError (VariableMapping α))
    (name : String) :
    (∀ (s : StoreModel) (rest : List StoreModel) (m : VariableMapping α),
      StateStorage.load dec s name = some m →
      loadFirst dec name (s :: rest) = (some m, [Event.probe s name]))
    ∧ (∀ stores : List StoreModel,
      (∀ s ∈ stores, StateStorage.load dec s name = none) →
      loadFirst dec name stores
        = (none, stores.map (fun s => Event.probe s name)))
    ∧ (∀ (sess : FailSafeState α) (scope : VariableMapping α),
      sess.name = name → sess.state_stores.isEmpty = false →
      (∀ s ∈ sess.state_stores, StateStorage.load dec s name = none) →
      (sess.enter dec scope).1
        = Except.ok ({ sess with entered := true }, scope)) := by
  refine ⟨?_, ?_, ?_⟩
  · intro s rest m hm
    simp [loadFirst, hm]
  · intro stores h
    exact loadFirst_all_none dec name stores h
  · intro sess scope hname hne h
    have hload : sess.load_state dec
        = (none, sess.state_stores.map (fun s => Event.probe s sess.name)) := by
      rw [FailSafeState.load_state, hname]
      exact loadFirst_all_none dec name sess.state_stores h
    simp [FailSafeState.enter, hne, hload]

/-- Closed witness for C2: a populated first store wins without the second
store being probed, even though the second store holds different data; with
both stores empty, open leaves the scope untouched. -/
theorem priority_load_witness :
    (loadFirst demoDec "n"
        [⟨[("n", demoBytes)]⟩, ⟨[("n", 1 :: encodeMapping [("x", 9)])]⟩]
      = (some [("x", 5)], [Event.probe ⟨[("n", demoBytes)]⟩ "n"]))
    ∧ ((demoSess.enter demoDec demoScope).1
      = Except.ok ({ demoSess with entered := true }, demoScope)) :=
  ⟨(priority_load demoDec "n").1 ⟨[("n", demoBytes)]⟩
      [⟨[("n", 1 :: encodeMapping [("x", 9)])]⟩] [("x", 5)] (by rfl),
   (priority_load demoDec "n").2.2 demoSess demoScope rfl rfl
      (by intro s hs; simp [demoSess, emptyStore] at hs; subst hs; rfl)⟩

/-- C3: for every variable mapping `M` and attachment set `A`, projecting `M`
through the filter, saving the projection to a store and loading it back
yields exactly the sub-mapping of `M` whose keys are in `A` — or all of `M`
when `A` is empty — assuming the encoder and decoder are mutually inverse at
the projection (with non-empty output bytes, as `pickle.dumps` produces). -/
theorem project_save_load_roundtrip {α : Type}
    (enc : VariableMapping α → Except PickleError Bytes)
    (dec : Bytes → Except UnpicklingError (VariableMapping α))
    (A : List String) (M : VariableMapping α) (store : StoreModel)
    (name : String) (b : Bytes)
    (henc : enc (filterAttached A M) = Except.ok b) (hne : b ≠ [])
    (hdec : dec b = Except.ok (filterAttached A M)) :
    ∃ store2,
      StateStorage.save enc store name (filterAttached A M) = Except.ok store2
      ∧ StateStorage.load dec store2 name
          = some (if A.isEmpty then M
                  else M.filter (fun kv => A.contains kv.1)) := by
  refine ⟨store.save_data name b, ?_, ?_⟩
  · simp [StateStorage.save, henc]
  · rw [load_save_data dec store name b hne _ hdec]
    simp [filterAttached]

/-- Closed witness for C3, at `A = ["x"]`, `M = [("x", 5), ("y", 6)]` and the
executable demo codec. -/
theorem project_save_load_roundtrip_witness :
    ∃ store2,
      StateStorage.save demoEnc emptyStore "n"
          (filterAttached ["x"] demoScope) = Except.ok store2
      ∧ StateStorage.load demoDec store2 "n"
          = some (if (["x"] : List String).isEmpty then demoScope
                  else demoScope.filter
                    (fun kv => (["x"] : List String).contains kv.1)) :=
  project_save_load_roundtrip demoEnc demoDec ["x"] demoScope emptyStore "n"
    demoBytes (by rfl) (by simp [demoBytes]) (by rfl)

/-- C4 (the ResetPredicate is modelled from the spec, `reset_if` being
absent from `src`): when the predicate evaluates true at open time, every
registered store is wiped under the session name before the load step — the
probes of the event trace are of the already-wiped stores, every one of which
loads back absent — and open proceeds exactly as if no snapshot existed: the
scope is returned untouched and no restore event occurs, regardless of the
stores' prior content. -/
theorem reset_predicate_fresh_start {α : Type}
    (dec : Bytes → Except UnpicklingError (VariableMapping α))
    (sess : FailSafeState α) (scope : VariableMapping α)
    (h : sess.state_stores.isEmpty = false) :
    sess.enterWithReset true dec scope
      = (Except.ok ({ sess.del_state with entered := true }, scope),
         sess.state_stores.map
           (fun s => Event.probe (s.wipe sess.name) sess.name))
    ∧ ∀ s ∈ sess.del_state.state_stores,
        StateStorage.load dec s sess.name = none := by
  have hwiped : ∀ s ∈ sess.del_state.state_stores,
      StateStorage.load dec s sess.name = none := by
    intro s hs
    rw [del_state_stores] at hs
    rcases List.mem_map.mp hs with ⟨t, _, rfl⟩
    exact load_wipe dec t sess.name
  refine ⟨?_, hwiped⟩
  have hname : sess.del_state.name = sess.name := rfl
  have hload : sess.del_state.load_state dec
      = (none, sess.del_state.state_stores.map
          (fun s => Event.probe s sess.name)) := by
    rw [FailSafeState.load_state, hname]
    exact loadFirst_all_none dec sess.name sess.del_state.state_stores hwiped
  simp [FailSafeState.enterWithReset, h, hload, del_state_stores,
    Function.comp]

/-- Closed witness for C4: a store already holding a decodable snapshot under
the session name is wiped by a true reset predicate, and open restores
nothing. -/
theorem reset_predicate_fresh_start_witness :
    ({ demoSess with state_stores := [⟨[("n", demoBytes)]⟩] }
        : FailSafeState Nat).enterWithReset true demoDec demoScope
      = (Except.ok
          ({ ({ demoSess with state_stores := [⟨[("n", demoBytes)]⟩] }
              : FailSafeState Nat).del_state with entered := true },
           demoScope),
         [Event.probe (StoreModel.wipe ⟨[("n", demoBytes)]⟩ "n") "n"]) :=
  (reset_predicate_fresh_start demoDec
    ({ demoSess with state_stores := [⟨[("n", demoBytes)]⟩] }) demoScope
    rfl).1

/-- A first registered store whose backend write fails. -/
def flakyA : FlakyStore := ⟨1, [], true⟩

/-- A second registered store whose backend write also fails. -/
def flakyB : FlakyStore := ⟨2, [], true⟩

/-- Counterexample to C5 as stated: with two registered stores whose saves
both fail, the fan-out surfaces only the first store's failure; the second
store's failure occurs (its task errors) yet the caller-visible outcome is
identical to the run in which the second store succeeds — the later failure
is lost silently, so the failures are not all collected and surfaced. -/
theorem fanout_second_failure_lost :
    (flakySaveTask "n" demoBytes flakyB).2 = some 2
    ∧ (fanOutMap (flakySaveTask "n" demoBytes) [flakyA, flakyB]).2 = some 1
    ∧ ¬ (fanOutMap (flakySaveTask "n" demoBytes) [flakyA, flakyB]).2 = some 2
    ∧ (fanOutMap (flakySaveTask "n" demoBytes) [flakyA, flakyB]).2
        = (fanOutMap (flakySaveTask "n" demoBytes)
            [flakyA, { flakyB with failing := false }]).2 := by
  refine ⟨rfl, rfl, ?_, rfl⟩
  intro h
  simp [fanOutMap, flakySaveTask, flakyA, flakyB] at h

/-- C5 amended: during a fan-out save or wipe, every store still attempts its
operation — the resulting store states reflect every task's effect, and the
fan-out is not fail-fast in execution — but the failures are not all
collected: only the first failure in submission (registration) order is
surfaced to the caller, and any later store's failure is lost silently. -/
theorem fanout_all_attempt_first_failure_surfaced {σ ε : Type}
    (op : σ → σ × Option ε) (stores : List σ) :
    (fanOutMap op stores).1 = stores.map (fun s => (op s).1)
    ∧ (fanOutMap op stores).2
        = firstFailure (stores.map (fun s => (op s).2)) := by
  rw [fanOutMap_spec]
  exact ⟨rfl, rfl⟩

/-- C6: for every state mapping whose encoding fails, `StateStorage.save`
raises the encoding error to the caller, and the backing store is untouched —
the corresponding fan-out task returns the store exactly as it was, so no
partial save is attempted. -/
theorem save_encode_error_no_write {α : Type}
    (enc : VariableMapping α → Except PickleError Bytes)
    (s : StoreModel) (name : String) (m : VariableMapping α)
    (e : PickleError) (he : enc m = Except.error e) :
    StateStorage.save enc s name m = Except.error e
    ∧ saveTask enc name m s = (s, some e) := by
  simp [StateStorage.save, saveTask, he]

/-- Closed witness for C6: an always-failing encoder (an un-picklable value)
surfaces `PickleError` and leaves the store's files unchanged. -/
theorem save_encode_error_no_write_witness :
    StateStorage.save failEnc emptyStore "n" demoScope
        = Except.error PickleError.pickleError
    ∧ saveTask failEnc "n" demoScope emptyStore
        = (emptyStore, some PickleError.pickleError) :=
  save_encode_error_no_write failEnc emptyStore "n" demoScope
    PickleError.pickleError rfl

/-- C7: `StateStorage.load` returns the previously saved mapping (for a
successful save whose bytes decode back, as a mutually inverse codec
guarantees); it returns absent (`none`) whenever no stored bytes exist and
whenever the stored bytes fail to decode — and its return type is an
`Option`, so a decode failure can never reach the caller as an error. -/
theorem load_saved_or_absent {α : Type}
    (dec : Bytes → Except UnpicklingError (VariableMapping α))
    (enc : VariableMapping α → Except PickleError Bytes) (name : String) :
    (∀ (s store2 : StoreModel) (m : VariableMapping α) (b : Bytes),
      enc m = Except.ok b → b ≠ [] → dec b = Except.ok m →
      StateStorage.save enc s name m = Except.ok store2 →
      StateStorage.load dec store2 name = some m)
    ∧ (∀ s : StoreModel, s.load_data name = none →
      StateStorage.load dec s name = none)
    ∧ (∀ (s : StoreModel) (b : Bytes) (e : UnpicklingError),
      s.load_data name = some b → dec b = Except.error e →
      StateStorage.load dec s name = none) := by
  refine ⟨?_, ?_, ?_⟩
  · intro s store2 m b hb hne hdec hsave
    have : store2 = s.save_data name b := by
      simp [StateStorage.save, hb] at hsave
      exact hsave.symm
    rw [this]
    exact load_save_data dec s name b hne m hdec
  · intro s hs
    simp [StateStorage.load, hs]
  · intro s b e hs hdec
    simp [StateStorage.load, hs, hdec]

/-- Closed witness for C7: a saved mapping loads back; an empty store and a
store holding undecodable bytes both load as absent. -/
theorem load_saved_or_absent_witness :
    StateStorage.load demoDec (StoreModel.save_data emptyStore "n" demoBytes)
        "n" = some [("x", 5)]
    ∧ StateStorage.load demoDec emptyStore "n" = none
    ∧ StateStorage.load demoDec ⟨[("n", [7])]⟩ "n" = none :=
  ⟨(load_saved_or_absent demoDec demoEnc "n").1 emptyStore
      (StoreModel.save_data emptyStore "n" demoBytes) [("x", 5)] demoBytes
      rfl (by simp [demoBytes]) rfl (by rfl),
   (load_saved_or_absent demoDec demoEnc "n").2.1 emptyStore rfl,
   (load_saved_or_absent demoDec demoEnc "n").2.2 ⟨[("n", [7])]⟩ [7]
      UnpicklingError.unpicklingError rfl rfl⟩

/-- C8: opening a session whose store list is empty fails with the
"no storage configured" error; the failure happens before any collaborator
interaction — the event trace is empty (no store is probed, nothing is
restored) and no opened session state is produced, whatever the decoder and
the caller's scope are. -/
theorem enter_no_storage_rejected {α : Type}
    (dec : Bytes → Except UnpicklingError (VariableMapping α))
    (sess : FailSafeState α) (scope : VariableMapping α)
    (h : sess.state_stores = []) :
    sess.enter dec scope = (Except.error EnterError.noStorage, []) := by
  simp [FailSafeState.enter, h]

/-- Closed witness for C8, at a concrete store-less session. -/
theorem enter_no_storage_rejected_witness :
    ({ demoSess with state_stores := [] } : FailSafeState Nat).enter demoDec
        demoScope
      = (Except.error EnterError.noStorage, []) :=
  enter_no_storage_rejected demoDec { demoSess with state_stores := [] }
    demoScope rfl

/-- A session that is already in the Open state (`entered = true`). -/
def openSess : FailSafeState Nat :=
  { name := "n", attached := [], state_stores := [emptyStore],
    delete_cache := true, entered := true }

/-- Counterexample to C9 as stated: opening a session whose `entered` flag is
already set raises no error at all — `__enter__` returns normally and probes
the store a second time, i.e. it proceeds with a second load/restore. -/
theorem reentry_not_guarded_cex :
    openSess.entered = true
    ∧ (openSess.enter demoDec []).1
        = Except.ok ({ openSess with entered := true }, [])
    ∧ (openSess.enter demoDec []).2 = [Event.probe emptyStore "n"] :=
  ⟨rfl, rfl, rfl⟩

/-- C9 amended: opening an already-open session is not guarded — `__enter__`
never consults the `entered` flag, so opening in the Open state behaves
exactly like opening in the Closed state and proceeds with a second
load/restore, returning successfully whenever stores are registered. -/
theorem enter_ignores_entered_flag {α : Type}
    (dec : Bytes → Except UnpicklingError (VariableMapping α))
    (sess : FailSafeState α) (scope : VariableMapping α)
    (h : sess.state_stores.isEmpty = false) :
    ({ sess with entered := true } : FailSafeState α).enter dec scope
        = ({ sess with entered := false } : FailSafeState α).enter dec scope
    ∧ (({ sess with entered := true } : FailSafeState α).enter dec
        scope).1.isOk = true := by
  constructor
  · simp [FailSafeState.enter, FailSafeState.load_state,
      FailSafeState.filter_vars]
  · simp only [FailSafeState.enter]
    have h2 : ({ sess with entered := true } :
        FailSafeState α).state_stores.isEmpty = false := h
    simp only [h2, Bool.false_eq_true, if_false]
    rcases hl : ({ sess with entered := true } :
        FailSafeState α).load_state dec with ⟨om, evs⟩
    cases om <;> simp [hl, Except.isOk, Except.toBool]

/-- Closed witness for C9's amended statement, at a concrete open session. -/
theorem enter_ignores_entered_flag_witness :
    (openSess.enter demoDec []
        = ({ openSess with entered := false } : FailSafeState Nat).enter
            demoDec [])
    ∧ (openSess.enter demoDec []).1.isOk = true :=
  ⟨(enter_ignores_entered_flag demoDec openSess [] rfl).1,
   (enter_ignores_entered_flag demoDec openSess [] rfl).2⟩

/-- C10 fails on the code (the claim states the intent): the `{rand}` token
of `LocalStorage._resolve_path` is drawn by `random.randint(0, 65536)`, whose
upper endpoint is inclusive, so the draw 65536 is possible — a 17-bit value
outside 0..65535 which `"%04x"` renders as the five hex digits `"10000"`,
while every intended draw (up to 65535) renders as exactly four. -/
theorem rand_tag_17bit_overflow :
    randTagPossible 65536
    ∧ ¬ 65536 ≤ 65535
    ∧ format04x 65536 = "10000"
    ∧ (format04x 65536).length = 5
    ∧ format04x 65535 = "ffff"
    ∧ (format04x 65535).length = 4 := by
  refine ⟨⟨Nat.zero_le _, Nat.le_refl _⟩, by decide, by decide, by decide,
    by decide, by decide⟩

end FailSafe
